import Mathlib

/-!
Verification of the signature and blob-transaction core of the repository.

The development shallowly embeds `packages/util/src/signature.ts` and
`packages/tx/src/eip4844Transaction.ts`. Buffers are modelled as `List Nat`
(one entry per byte), JavaScript `bigint`s as `Nat` (all values handled by
the embedded code paths are non-negative; the one negative intermediate,
inside `calculateSigRecovery`, is computed in `Int` with JavaScript's
truncating remainder). Functions that `throw` are modelled as `Except`.
-/

/-! ### Constants

`SECP256K1_ORDER` and `SECP256K1_ORDER_DIV_2` come from the util package's
constants module, which is not among the included sources. Modelled from the
spec: the secp256k1 group order and its integer half ("curve order" and
"half the curve order" in §3/§4.1 of the spec). -/

def SECP256K1_ORDER : Nat :=
  0xfffffffffffffffffffffffffffffffebaaedce6af48a03bbfd25e8cd0364141

def SECP256K1_ORDER_DIV_2 : Nat := SECP256K1_ORDER / 2

/-- Maximum integer bound for transaction fields (2^256 - 1). -/
def MAX_INTEGER : Nat := 2 ^ 256 - 1

/-! ### Byte helpers (from `packages/util/src/bytes.ts`, used by the
embedded functions; their behavior is standard big-endian byte/integer
conversion) -/

/-- `bufferToBigInt`: big-endian interpretation of a byte buffer; the empty
buffer yields 0. -/
def bufferToBigInt (buf : List Nat) : Nat :=
  List.foldl (fun acc b => acc * 256 + b) 0 buf

/-- Helper for `beDigits`: structural recursion on a fuel argument, so
that concrete values reduce inside the kernel. The fuel is an upper bound
on the value, and each division by 256 strictly decreases a positive
value, so `beDigitsAux n n` never exhausts the fuel. -/
def beDigitsAux : Nat → Nat → List Nat
  | _, 0 => []
  | 0, _ + 1 => []
  | fuel + 1, n + 1 => beDigitsAux fuel ((n + 1) / 256) ++ [(n + 1) % 256]

/-- Big-endian base-256 digits of a positive number (no leading zeros;
`0` gives the empty list). -/
def beDigits (n : Nat) : List Nat :=
  beDigitsAux n n

/-- `toBuffer` on a bigint (`bigIntToBuffer`): minimal big-endian bytes,
with `0` rendered as the single byte `0x00` (hex string "0x0" is padded to
"00"). -/
def natToBytes (n : Nat) : List Nat :=
  if n = 0 then [0] else beDigits n

/-- `bigIntToUnpaddedBuffer`: minimal big-endian bytes with all leading
zeros stripped, so `0` gives the empty buffer. -/
def natToUnpaddedBytes (n : Nat) : List Nat :=
  beDigits n

/-- `setLengthLeft buf n`: left-pad `buf` with zeros to `n` bytes, or keep
the rightmost `n` bytes if it is longer. -/
def setLengthLeft (buf : List Nat) (n : Nat) : List Nat :=
  if buf.length ≤ n then List.replicate (n - buf.length) 0 ++ buf
  else buf.drop (buf.length - n)

deriving instance DecidableEq for Except

/-! ### `packages/util/src/signature.ts` -/

/-- The decoded signature record returned by `fromRpcSig`
(`ECDSASignature`). -/
structure ECDSASig where
  v : Nat
  r : List Nat
  s : List Nat
  recovery : Nat
deriving DecidableEq

/-- Errors thrown by the signature module. -/
inductive SigError where
  /-- "Invalid signature v value" -/
  | invalidSignature
  /-- "Invalid signature length" -/
  | invalidSignatureLength
deriving DecidableEq

/-- `calculateSigRecovery` from `signature.ts` (lines 49-66), branch for
branch. The final branch evaluates `(0n - 35n - v) % 2n` with JavaScript's
truncating remainder on `bigint`s, which is `Int.tmod`. -/
def calculateSigRecovery (v : Nat) : Nat :=
  if 28 < v ∧ v < 35 then v
  else if v < 27 ∧ 1 < v then v
  else if v = 27 ∨ v = 28 then v - 27
  else if v = 0 ∨ v = 1 then v
  else if (0 - 35 - (v : Int)).tmod 2 = 0 then 0
  else 1

/-- `isValidSigRecovery` from `signature.ts`. -/
def isValidSigRecovery (recovery : Nat) : Prop :=
  recovery = 0 ∨ recovery = 1

instance (recovery : Nat) : Decidable (isValidSigRecovery recovery) := by
  unfold isValidSigRecovery; infer_instance

/-- The arguments `ecrecover` hands to the external curve-recovery routine
(`recoverPublicKey` of ethereum-cryptography); the cryptographic recovery
itself is outside the embedded sources, so the call is the observable
result. -/
structure EcrecoverCall where
  msgHash : List Nat
  signature : List Nat
  recovery : Nat
deriving DecidableEq

/-- `ecrecover` from `signature.ts` (lines 77-85): concatenates the padded
`r` and `s`, normalizes `v`, throws on an invalid recovery value, and
otherwise calls the external recovery routine. -/
def ecrecover (msgHash : List Nat) (v : Nat) (r s : List Nat) :
    Except SigError EcrecoverCall :=
  let signature := setLengthLeft r 32 ++ setLengthLeft s 32
  let recovery := calculateSigRecovery v
  if ¬ isValidSigRecovery recovery then .error .invalidSignature
  else .ok ⟨msgHash, signature, recovery⟩

/-- `toRpcSig` from `signature.ts` (lines 92-100): 65-byte (or longer, for
a multi-byte `v`) legacy layout `pad(r,32) ++ pad(s,32) ++ toBuffer(v)`.
The hex-string layer (`bufferToHex`) is a bijection on byte strings and is
elided: the function is modelled as producing the bytes themselves. -/
def toRpcSig (v : Nat) (r s : List Nat) : Except SigError (List Nat) :=
  if ¬ isValidSigRecovery (calculateSigRecovery v) then .error .invalidSignature
  else .ok (setLengthLeft r 32 ++ setLengthLeft s 32 ++ natToBytes v)

/-- `toCompactSig` from `signature.ts` (lines 107-120): 64-byte EIP-2098
layout; when `(v > 28 && v % 2 == 1) || v == 1 || v == 28` the top bit of
the first byte of `s` is set (`ss[0] |= 0x80`) before padding. -/
def toCompactSig (v : Nat) (r s : List Nat) : Except SigError (List Nat) :=
  if ¬ isValidSigRecovery (calculateSigRecovery v) then .error .invalidSignature
  else
    let ss :=
      if (28 < v ∧ v % 2 = 1) ∨ v = 1 ∨ v = 28 then
        match s with
        | [] => []
        | b :: rest => (b ||| 0x80) :: rest
      else s
    .ok (setLengthLeft r 32 ++ setLengthLeft ss 32)

/-- `fromRpcSig` from `signature.ts` (lines 130-163): inputs of length 65
or more take the legacy path (`v` is every byte from position 64 on);
length exactly 64 takes the EIP-2098 compact path (parity from the top bit
of byte 32, which is then cleared); anything shorter throws. `recovery` is
computed from the extracted `v` before the `v < 27 → v + 27` adjustment. -/
def fromRpcSig (buf : List Nat) : Except SigError ECDSASig :=
  if 65 ≤ buf.length then
    let r := buf.take 32
    let s := (buf.drop 32).take 32
    let v := bufferToBigInt (buf.drop 64)
    let recovery := calculateSigRecovery v
    .ok ⟨if v < 27 then v + 27 else v, r, s, recovery⟩
  else if buf.length = 64 then
    let r := buf.take 32
    let s0 := (buf.drop 32).take 32
    let v := bufferToBigInt ((buf.drop 32).take 1) >>> 7
    let s := match s0 with
      | [] => []
      | b :: rest => (b &&& 0x7f) :: rest
    let recovery := calculateSigRecovery v
    .ok ⟨if v < 27 then v + 27 else v, r, s, recovery⟩
  else .error .invalidSignatureLength

/-- `isValidSignature` from `signature.ts` (lines 170-201). -/
def isValidSignature (v : Nat) (r s : List Nat) (homesteadOrLater : Bool) :
    Bool :=
  if r.length ≠ 32 ∨ s.length ≠ 32 then false
  else if ¬ isValidSigRecovery (calculateSigRecovery v) then false
  else if bufferToBigInt r = 0 ∨ SECP256K1_ORDER ≤ bufferToBigInt r
      ∨ bufferToBigInt s = 0 ∨ SECP256K1_ORDER ≤ bufferToBigInt s then false
  else if homesteadOrLater = true ∧ SECP256K1_ORDER_DIV_2 ≤ bufferToBigInt s then
    false
  else true

/-! ### Spec-side restatement of the recovery normalizer (for claim C1)

This definition follows the words of the spec (§4.2), with the final parity
branch read with the mathematical (non-negative) modulus; it is compared
against `calculateSigRecovery`, which is translated from the source. -/

/-- The recovery normalizer as the spec states it: the same precedence of
bands, with the last case `(0 - 35 - v) mod 2 = 0 → 0, else 1` taken with
the mathematical modulus on integers. -/
def normalizeSpec (v : Nat) : Nat :=
  if 28 < v ∧ v < 35 then v
  else if 1 < v ∧ v < 27 then v
  else if v = 27 ∨ v = 28 then v - 27
  else if v = 0 ∨ v = 1 then v
  else if (0 - 35 - (v : Int)) % 2 = 0 then 0
  else 1

/-- A JavaScript truncating remainder by 2 vanishes exactly when the
mathematical remainder by 2 does. -/
theorem tmod_two_eq_zero_iff (n : Int) : n.tmod 2 = 0 ↔ n % 2 = 0 := by
  constructor
  · intro h
    have : (2 : Int) ∣ n := Int.dvd_of_tmod_eq_zero h
    omega
  · intro h
    exact Int.tmod_eq_zero_of_dvd (by omega)

/-- Claim C1: `calculateSigRecovery` implements exactly the spec's
precedence: `v ∈ (28,35)` and `v ∈ (1,27)` are returned unchanged, 27/28
map to `v - 27`, 0/1 are returned unchanged, and otherwise the result is 0
when `(0 - 35 - v) mod 2 = 0` and 1 otherwise; in particular 27 ↦ 0,
28 ↦ 1, 37 ↦ 0 and 38 ↦ 1. -/
theorem calculateSigRecovery_matches_spec :
    (∀ v : Nat, calculateSigRecovery v = normalizeSpec v)
    ∧ calculateSigRecovery 27 = 0 ∧ calculateSigRecovery 28 = 1
    ∧ calculateSigRecovery 37 = 0 ∧ calculateSigRecovery 38 = 1 := by
  refine ⟨fun v => ?_, by decide, by decide, by decide, by decide⟩
  unfold calculateSigRecovery normalizeSpec
  have h := tmod_two_eq_zero_iff (0 - 35 - (v : Int))
  have hand : (v < 27 ∧ 1 < v) ↔ (1 < v ∧ v < 27) := and_comm
  rw [if_congr hand rfl rfl]
  split
  · rfl
  · split
    · rfl
    · split
      · rfl
      · split
        · rfl
        · split
          · rename_i ht
            rw [if_pos (h.mp ht)]
          · rename_i ht
            rw [if_neg (fun hc => ht (h.mpr hc))]


/-- Claim C2: `isValidSignature v r s hom` returns true exactly when `r`
and `s` are each 32 bytes long, `v` normalizes to 0 or 1, the integer
values of `r` and `s` are nonzero and strictly below the secp256k1 order,
and, when the homestead-or-later policy is on, `s` is additionally below
the half order; so for otherwise-valid inputs with `s ≥` half order the
result is true exactly when the policy is off. -/
theorem isValidSignature_iff (v : Nat) (r s : List Nat) (hom : Bool) :
    isValidSignature v r s hom = true ↔
      (r.length = 32 ∧ s.length = 32
        ∧ (calculateSigRecovery v = 0 ∨ calculateSigRecovery v = 1)
        ∧ 0 < bufferToBigInt r ∧ bufferToBigInt r < SECP256K1_ORDER
        ∧ 0 < bufferToBigInt s ∧ bufferToBigInt s < SECP256K1_ORDER
        ∧ (hom = true → bufferToBigInt s < SECP256K1_ORDER_DIV_2)) := by
  unfold isValidSignature isValidSigRecovery
  cases hom <;> split_ifs <;>
    simp only [Bool.false_eq_true, false_iff, true_iff, not_or, not_not,
      not_and, not_le, not_lt, ne_eq, Bool.true_eq_false, forall_const,
      false_implies, true_implies, and_true, true_and, implies_true,
      false_and, and_false] at * <;>
    omega

/-- Claim C4 (amended): `fromRpcSig` succeeds exactly on inputs of 64 bytes
or more (65 bytes and longer take the legacy path, with every byte from
position 64 on read as `v`; exactly 64 takes the compact path), and fails
with the invalid-length error exactly on inputs shorter than 64 bytes. -/
theorem fromRpcSig_length_behavior (buf : List Nat) :
    ((∃ sig, fromRpcSig buf = .ok sig) ↔ 64 ≤ buf.length)
    ∧ (buf.length < 64 → fromRpcSig buf = .error .invalidSignatureLength) := by
  unfold fromRpcSig
  split_ifs with h1 h2 <;>
    simp_all <;> omega

/-- Witness for `fromRpcSig_length_behavior`: a 10-byte input is rejected
with the invalid-length error, and a 64-byte input is accepted. -/
theorem fromRpcSig_length_behavior_witness :
    fromRpcSig (List.replicate 10 0) = .error .invalidSignatureLength
    ∧ (∃ sig, fromRpcSig (List.replicate 64 0) = .ok sig) :=
  ⟨(fromRpcSig_length_behavior (List.replicate 10 0)).2 (by decide),
   (fromRpcSig_length_behavior (List.replicate 64 0)).1.mpr (by decide)⟩

/-- Counterexample to claim C4 as stated: a 66-byte input (length above 65)
does not fail with the invalid-length error; it is decoded on the legacy
path with the last two bytes read as `v`. -/
theorem fromRpcSig_accepts_66_bytes :
    fromRpcSig (List.replicate 66 0)
      = .ok ⟨27, List.replicate 32 0, List.replicate 32 0, 0⟩ := by
  decide

/-- Claim C5 (amended): for every `v` whose normalization is neither 0 nor
1, `ecrecover`, `toRpcSig` and `toCompactSig` fail with the
invalid-signature error and `isValidSignature` returns false; `fromRpcSig`
performs no such check (see the counterexample) and is not among the
rejecting operations. -/
theorem invalid_v_rejected (v : Nat) (msgHash r s : List Nat) (hom : Bool)
    (hv : ¬ isValidSigRecovery (calculateSigRecovery v)) :
    ecrecover msgHash v r s = .error .invalidSignature
    ∧ toRpcSig v r s = .error .invalidSignature
    ∧ toCompactSig v r s = .error .invalidSignature
    ∧ isValidSignature v r s hom = false := by
  refine ⟨?_, ?_, ?_, ?_⟩
  · simp [ecrecover, hv]
  · simp [toRpcSig, hv]
  · simp [toCompactSig, hv]
  · unfold isValidSignature; split_ifs <;> simp_all

/-- Witness for `invalid_v_rejected` at `v = 2` (a value in the quirk band
`(1, 27)`, which normalizes to itself). -/
theorem invalid_v_rejected_witness :
    ecrecover (List.replicate 32 0) 2 (List.replicate 32 1) (List.replicate 32 1)
      = .error .invalidSignature
    ∧ toRpcSig 2 (List.replicate 32 1) (List.replicate 32 1)
      = .error .invalidSignature
    ∧ toCompactSig 2 (List.replicate 32 1) (List.replicate 32 1)
      = .error .invalidSignature
    ∧ isValidSignature 2 (List.replicate 32 1) (List.replicate 32 1) true
      = false :=
  invalid_v_rejected 2 (List.replicate 32 0) (List.replicate 32 1)
    (List.replicate 32 1) true (by decide)

/-- Counterexample to claim C5 as stated: `fromRpcSig` does not fail on a
65-byte signature whose trailing `v` byte is 2, even though
`calculateSigRecovery 2 = 2` is neither 0 nor 1; it returns the decoded
triple with the invalid recovery value untouched. -/
theorem fromRpcSig_accepts_invalid_v :
    fromRpcSig (List.replicate 64 0 ++ [2])
      = .ok ⟨29, List.replicate 32 0, List.replicate 32 0, 2⟩
    ∧ ¬ isValidSigRecovery (calculateSigRecovery 2) := by
  decide

/-! ### Bit-level facts about single bytes, used for the EIP-2098 parity
bit (folded by `ss[0] |= 0x80` and recovered by `>> 7` / cleared by
`&= 0x7f`) -/

/-- Setting the top bit of a byte below 128 makes its top bit read as 1. -/
theorem lor128_shiftRight7 : ∀ b < 128, (b ||| 128) >>> 7 = 1 := by decide

/-- Clearing the top bit after setting it restores a byte below 128. -/
theorem lor128_land127 : ∀ b < 128, (b ||| 128) &&& 127 = b := by decide

/-- A byte below 128 has top bit 0. -/
theorem small_shiftRight7 : ∀ b < 128, b >>> 7 = 0 := by decide

/-- Clearing the top bit of a byte below 128 is the identity. -/
theorem small_land127 : ∀ b < 128, b &&& 127 = b := by decide

/-- `setLengthLeft` is the identity on buffers that are already 32 bytes. -/
theorem setLengthLeft_of_length_eq (buf : List Nat) (h : buf.length = 32) :
    setLengthLeft buf 32 = buf := by
  simp [setLengthLeft, h]

/-- `toRpcSig` on 32-byte `r` and `s` with a valid `v` produces
`r ++ s ++ toBuffer(v)`. -/
theorem toRpcSig_eq (v : Nat) (r s : List Nat) (hr : r.length = 32)
    (hs : s.length = 32) (hv : isValidSigRecovery (calculateSigRecovery v)) :
    toRpcSig v r s = .ok (r ++ s ++ natToBytes v) := by
  simp [toRpcSig, hv, setLengthLeft_of_length_eq r hr, setLengthLeft_of_length_eq s hs]

/-- `toCompactSig` on a 32-byte `r` and `s` with a valid `v` produces the
64-byte compact layout, with the top bit of the first `s` byte set exactly
under the source's condition `(v > 28 && v % 2 == 1) || v == 1 || v == 28`. -/
theorem toCompactSig_eq (v b0 : Nat) (r rest : List Nat) (hr : r.length = 32)
    (hrest : rest.length = 31)
    (hv : isValidSigRecovery (calculateSigRecovery v)) :
    toCompactSig v r (b0 :: rest)
      = .ok (r ++ (if (28 < v ∧ v % 2 = 1) ∨ v = 1 ∨ v = 28 then b0 ||| 128
          else b0) :: rest) := by
  have hlen : ∀ x : Nat, (x :: rest).length = 32 := by simp [hrest]
  simp only [toCompactSig, hv, not_true_eq_false, if_false, ite_not]
  split_ifs with h <;>
    simp [setLengthLeft_of_length_eq r hr, setLengthLeft_of_length_eq _ (hlen _), h]

/-- `fromRpcSig` on a 65-byte-or-longer input splits it as
`r ++ s ++ v-bytes` and adds 27 to a decoded `v` below 27. -/
theorem fromRpcSig_legacy (r s t : List Nat) (hr : r.length = 32)
    (hs : s.length = 32) (ht : 1 ≤ t.length) :
    fromRpcSig (r ++ s ++ t)
      = .ok ⟨if bufferToBigInt t < 27 then bufferToBigInt t + 27 else bufferToBigInt t,
             r, s, calculateSigRecovery (bufferToBigInt t)⟩ := by
  have hlen : (r ++ s ++ t).length = 64 + t.length := by simp [hr, hs]; omega
  unfold fromRpcSig
  rw [if_pos (by omega)]
  rw [List.append_assoc]
  rw [List.take_left' hr, List.drop_left' hr, List.take_left' hs]
  rw [← List.append_assoc]
  rw [List.drop_left' (by simp [hr, hs])]

/-- `fromRpcSig` on a 64-byte input reads the parity from the top bit of
byte 32, clears it, and returns `parity + 27` as `v`. -/
theorem fromRpcSig_compact (r : List Nat) (x : Nat) (rest : List Nat)
    (hr : r.length = 32) (hrest : rest.length = 31) (hx : x < 256) :
    fromRpcSig (r ++ x :: rest)
      = .ok ⟨x >>> 7 + 27, r, (x &&& 127) :: rest,
             calculateSigRecovery (x >>> 7)⟩ := by
  have hlen : (r ++ x :: rest).length = 64 := by simp [hr, hrest]
  have hshift : x >>> 7 < 27 := by
    have : x >>> 7 = x / 128 := by simp [Nat.shiftRight_eq_div_pow]
    omega
  unfold fromRpcSig
  rw [if_neg (by omega), if_pos hlen]
  rw [List.drop_left' hr, List.take_left' hr]
  have htake : (x :: rest).take 32 = x :: rest := by
    apply List.take_of_length_le; simp [hrest]
  have htake1 : (x :: rest).take 1 = [x] := by simp
  rw [htake, htake1]
  have hbb : bufferToBigInt [x] = x := by simp [bufferToBigInt]
  simp [hbb, hshift]

/-- Setting the top bit of a byte keeps it a byte. -/
theorem lor128_lt : ∀ b < 128, b ||| 128 < 256 := by decide

/-- Claim C3 (amended): for every `v` in `{0, 1, 27, 28}` and every
32-byte `r` and `s` whose leading byte is below `0x80`, decoding the
compact (EIP-2098) encoding and decoding the legacy RPC encoding of
`(v, r, s)` agree on `r`, `s` and the recovery field. (For EIP-155 values
`v ≥ 35` the two decodings disagree — `toCompactSig` folds the parity bit
for odd `v`, while `calculateSigRecovery` extracts parity 0 from odd
`v ≥ 35` — and an `s` with its top bit set is altered by the compact
round-trip; see the counterexample.) -/
theorem compact_legacy_decode_agree (v b0 : Nat) (r rest : List Nat)
    (hv : v = 0 ∨ v = 1 ∨ v = 27 ∨ v = 28)
    (hr : r.length = 32) (hrest : rest.length = 31) (hb0 : b0 < 128) :
    ∃ sigL sigC : ECDSASig,
      Except.bind (toRpcSig v r (b0 :: rest)) fromRpcSig = .ok sigL
      ∧ Except.bind (toCompactSig v r (b0 :: rest)) fromRpcSig = .ok sigC
      ∧ sigL.r = sigC.r ∧ sigL.s = sigC.s ∧ sigL.recovery = sigC.recovery := by
  have hs : (b0 :: rest).length = 32 := by simp [hrest]
  have hland := small_land127 b0 hb0
  have hlorshift := lor128_shiftRight7 b0 hb0
  have hlorland := lor128_land127 b0 hb0
  have hshift := small_shiftRight7 b0 hb0
  have hlorlt : b0 ||| 128 < 256 := lor128_lt b0 hb0
  rcases hv with rfl | rfl | rfl | rfl
  · refine ⟨⟨27, r, b0 :: rest, 0⟩, ⟨27, r, b0 :: rest, 0⟩, ?_, ?_, rfl, rfl, rfl⟩
    · rw [toRpcSig_eq 0 r _ hr hs (by decide)]
      simp only [Except.bind]
      rw [show natToBytes 0 = [0] from rfl,
        fromRpcSig_legacy r _ [0] hr hs (by decide)]
      simp [show bufferToBigInt [0] = 0 from rfl,
        show calculateSigRecovery 0 = 0 from by decide]
    · rw [toCompactSig_eq 0 b0 r rest hr hrest (by decide), if_neg (by decide)]
      simp only [Except.bind]
      rw [fromRpcSig_compact r b0 rest hr hrest (by omega)]
      simp [hshift, hland, show calculateSigRecovery 0 = 0 from by decide]
  · refine ⟨⟨28, r, b0 :: rest, 1⟩, ⟨28, r, b0 :: rest, 1⟩, ?_, ?_, rfl, rfl, rfl⟩
    · rw [toRpcSig_eq 1 r _ hr hs (by decide)]
      simp only [Except.bind]
      rw [show natToBytes 1 = [1] from rfl,
        fromRpcSig_legacy r _ [1] hr hs (by decide)]
      simp [show bufferToBigInt [1] = 1 from rfl,
        show calculateSigRecovery 1 = 1 from by decide]
    · rw [toCompactSig_eq 1 b0 r rest hr hrest (by decide), if_pos (by decide)]
      simp only [Except.bind]
      rw [fromRpcSig_compact r (b0 ||| 128) rest hr hrest hlorlt]
      simp [hlorshift, hlorland, show calculateSigRecovery 1 = 1 from by decide]
  · refine ⟨⟨27, r, b0 :: rest, 0⟩, ⟨27, r, b0 :: rest, 0⟩, ?_, ?_, rfl, rfl, rfl⟩
    · rw [toRpcSig_eq 27 r _ hr hs (by decide)]
      simp only [Except.bind]
      rw [show natToBytes 27 = [27] from rfl,
        fromRpcSig_legacy r _ [27] hr hs (by decide)]
      simp [show bufferToBigInt [27] = 27 from rfl,
        show calculateSigRecovery 27 = 0 from by decide]
    · rw [toCompactSig_eq 27 b0 r rest hr hrest (by decide), if_neg (by decide)]
      simp only [Except.bind]
      rw [fromRpcSig_compact r b0 rest hr hrest (by omega)]
      simp [hshift, hland, show calculateSigRecovery 0 = 0 from by decide]
  · refine ⟨⟨28, r, b0 :: rest, 1⟩, ⟨28, r, b0 :: rest, 1⟩, ?_, ?_, rfl, rfl, rfl⟩
    · rw [toRpcSig_eq 28 r _ hr hs (by decide)]
      simp only [Except.bind]
      rw [show natToBytes 28 = [28] from rfl,
        fromRpcSig_legacy r _ [28] hr hs (by decide)]
      simp [show bufferToBigInt [28] = 28 from rfl,
        show calculateSigRecovery 28 = 1 from by decide]
    · rw [toCompactSig_eq 28 b0 r rest hr hrest (by decide), if_pos (by decide)]
      simp only [Except.bind]
      rw [fromRpcSig_compact r (b0 ||| 128) rest hr hrest hlorlt]
      simp [hlorshift, hlorland, show calculateSigRecovery 1 = 1 from by decide]

/-- Witness for `compact_legacy_decode_agree` at `v = 27`, `r = 1…1`,
`s = 0x02 0x00…0x00`. -/
theorem compact_legacy_decode_agree_witness :
    ∃ sigL sigC : ECDSASig,
      Except.bind (toRpcSig 27 (List.replicate 32 1) (2 :: List.replicate 31 0))
        fromRpcSig = .ok sigL
      ∧ Except.bind (toCompactSig 27 (List.replicate 32 1) (2 :: List.replicate 31 0))
          fromRpcSig = .ok sigC
      ∧ sigL.r = sigC.r ∧ sigL.s = sigC.s ∧ sigL.recovery = sigC.recovery :=
  compact_legacy_decode_agree 27 2 (List.replicate 32 1) (List.replicate 31 0)
    (by decide) (by decide) (by decide) (by decide)

/-- Counterexample to claim C3 as stated: `v = 37` normalizes to the valid
recovery id 0 (EIP-155, chain id 1), yet the legacy decoding yields
recovery 0 while the compact decoding yields recovery 1: `toCompactSig`
sets the parity bit for odd `v > 28`, whereas `calculateSigRecovery`
assigns parity 0 to odd `v ≥ 35`. -/
theorem compact_legacy_decode_disagree :
    isValidSigRecovery (calculateSigRecovery 37)
    ∧ Except.map ECDSASig.recovery
        (Except.bind (toRpcSig 37 (List.replicate 32 1) (2 :: List.replicate 31 0))
          fromRpcSig) = .ok 0
    ∧ Except.map ECDSASig.recovery
        (Except.bind (toCompactSig 37 (List.replicate 32 1) (2 :: List.replicate 31 0))
          fromRpcSig) = .ok 1 := by
  decide


/-! ### `packages/tx/src/eip4844Transaction.ts`

The blob transaction (type `0x05`). The SSZ codec
(`SignedBlobTransactionType` from the tx package's types module) and the
base-contract validations (`BaseTransaction` from `baseTransaction.ts`)
are outside the included sources and are modelled from the spec where
noted. The constructor's validation pipeline follows the source order of
`BlobEIP4844Transaction`'s constructor (lines 65-138); the
fork-activation oracle is modelled as reporting EIP-1559 active and
EIP-3860 inactive, and the chain-configuration oracle as returning the
supplied chain id. The source's `to` field is called `toAddr` here, `to`
being a reserved token in Lean. -/

/-- Modelled from the spec: the reserved KZG-commitment version byte that
every versioned hash must start with (`BLOB_COMMITMENT_VERSION_KZG` from
the tx package's types module, outside the included sources; EIP-4844's
value 0x01). -/
def BLOB_COMMITMENT_VERSION_KZG : Nat := 0x01

/-- Modelled from the spec: the protocol's per-transaction blob limit
(`LIMIT_BLOBS_PER_TX` from the tx package's types module, outside the
included sources; the spec fixes no number, 16 is used as the concrete
protocol constant). -/
def LIMIT_BLOBS_PER_TX : Nat := 16

/-- The structured constructor input (`BlobEIP4844TxData`): addresses,
storage keys, data and versioned hashes are byte lists; `v`, `r`, `s` are
absent on an unsigned transaction. -/
structure BlobTxData where
  chainId : Nat
  nonce : Nat
  maxPriorityFeePerGas : Nat
  maxFeePerGas : Nat
  maxFeePerDataGas : Nat
  gasLimit : Nat
  toAddr : Option (List Nat)
  value : Nat
  data : List Nat
  accessList : List (List Nat × List (List Nat))
  versionedHashes : List (List Nat)
  v : Option Nat
  r : Option Nat
  s : Option Nat
deriving DecidableEq

/-- A constructed `BlobEIP4844Transaction`. `frozen` records whether the
constructor applied `Object.freeze` to the instance (the `freeze` option,
lines 134-137 of the source). -/
structure BlobTx where
  chainId : Nat
  nonce : Nat
  maxPriorityFeePerGas : Nat
  maxFeePerGas : Nat
  maxFeePerDataGas : Nat
  gasLimit : Nat
  toAddr : Option (List Nat)
  value : Nat
  data : List Nat
  accessList : List (List Nat × List (List Nat))
  versionedHashes : List (List Nat)
  v : Option Nat
  r : Option Nat
  s : Option Nat
  frozen : Bool
deriving DecidableEq

/-- Errors thrown during construction and use of a blob transaction,
keyed by the spec's §7 error kinds. -/
inductive TxError where
  | fieldBounds
  | accessListShape
  | feeOrdering
  | invalidYParity
  | invalidHighS
  | versionedHashFormat
  | blobCountExceeded
  | notSigned
  | invalidSignature
deriving DecidableEq

/-- Modelled from the spec (§4.3): the base contract's construction-time
bound checks — no numeric field (nonce, gas limit, value, and the
signature scalars when present) may exceed 2^256 - 1, and the recipient
is absent or a well-formed 20-byte address (`BaseTransaction`'s
constructor with `_validateCannotExceedMaxInteger`, outside the included
sources). -/
def baseBoundsOk (d : BlobTxData) : Prop :=
  d.nonce ≤ MAX_INTEGER ∧ d.gasLimit ≤ MAX_INTEGER ∧ d.value ≤ MAX_INTEGER
    ∧ (∀ a ∈ d.toAddr, a.length = 20)
    ∧ (∀ x ∈ d.r, x ≤ MAX_INTEGER) ∧ (∀ x ∈ d.s, x ≤ MAX_INTEGER)

/-- Modelled from the spec (§4.4): every access-list entry holds a
20-byte address and 32-byte storage keys (`AccessLists.verifyAccessList`
from the tx package's util module, outside the included sources). -/
def accessListOk (al : List (List Nat × List (List Nat))) : Prop :=
  ∀ item ∈ al, item.1.length = 20 ∧ ∀ k ∈ item.2, k.length = 32

/-- Modelled from the spec (§3/§4.3): `_validateYParity` — a present `v`
must be exactly 0 or 1 on this transaction type. -/
def yParityOk (v : Option Nat) : Prop :=
  ∀ x ∈ v, x = 0 ∨ x = 1

/-- Modelled from the spec (§3/§4.3): `_validateHighS` — a present `s`
must be below half the curve order (homestead-or-later policy). -/
def highSOk (s : Option Nat) : Prop :=
  ∀ x ∈ s, x < SECP256K1_ORDER_DIV_2

/-- The constructor's versioned-hash loop (source lines 117-126): every
hash is exactly 32 bytes and starts with the KZG version byte. Both loop
failures are the spec's `VersionedHashFormatError`. -/
def versionedHashesFormatOk (vhs : List (List Nat)) : Prop :=
  ∀ h ∈ vhs, h.length = 32 ∧ h.head? = some BLOB_COMMITMENT_VERSION_KZG

instance (d : BlobTxData) : Decidable (baseBoundsOk d) := by
  unfold baseBoundsOk; infer_instance

instance (al : List (List Nat × List (List Nat))) : Decidable (accessListOk al) := by
  unfold accessListOk; infer_instance

instance (v : Option Nat) : Decidable (yParityOk v) := by
  unfold yParityOk; infer_instance

instance (s : Option Nat) : Decidable (highSOk s) := by
  unfold highSOk; infer_instance

instance (vhs : List (List Nat)) : Decidable (versionedHashesFormatOk vhs) := by
  unfold versionedHashesFormatOk; infer_instance

/-- The record the constructor builds when every validation passes: the
fields are taken from the constructor input unchanged, and `frozen`
records whether `Object.freeze` was applied (the `freeze` option,
defaulting to true). -/
def buildBlobTx (d : BlobTxData) (freeze : Bool) : BlobTx :=
  { chainId := d.chainId, nonce := d.nonce,
    maxPriorityFeePerGas := d.maxPriorityFeePerGas,
    maxFeePerGas := d.maxFeePerGas, maxFeePerDataGas := d.maxFeePerDataGas,
    gasLimit := d.gasLimit, toAddr := d.toAddr, value := d.value,
    data := d.data, accessList := d.accessList,
    versionedHashes := d.versionedHashes,
    v := d.v, r := d.r, s := d.s, frozen := freeze }

/-- The `BlobEIP4844Transaction` constructor (source lines 65-138), with
its validations in source order: base-contract bounds, access-list shape,
fee-field bounds, `gasLimit * maxFeePerGas` overflow, fee ordering,
yParity, high-s, versioned-hash format (per hash), and blob count. A
validation failure throws, so no transaction value is produced. -/
def mkBlobTx (d : BlobTxData) (freeze : Bool) : Except TxError BlobTx :=
  if ¬ baseBoundsOk d then .error .fieldBounds
  else if ¬ accessListOk d.accessList then .error .accessListShape
  else if ¬ (d.maxFeePerGas ≤ MAX_INTEGER ∧ d.maxPriorityFeePerGas ≤ MAX_INTEGER) then
    .error .fieldBounds
  else if MAX_INTEGER < d.gasLimit * d.maxFeePerGas then .error .fieldBounds
  else if d.maxFeePerGas < d.maxPriorityFeePerGas then .error .feeOrdering
  else if ¬ yParityOk d.v then .error .invalidYParity
  else if ¬ highSOk d.s then .error .invalidHighS
  else if ¬ versionedHashesFormatOk d.versionedHashes then .error .versionedHashFormat
  else if LIMIT_BLOBS_PER_TX < d.versionedHashes.length then .error .blobCountExceeded
  else .ok (buildBlobTx d freeze)

/-- The SSZ message of a signed blob transaction: every field of the
transaction except the signature triple, exactly as `serialize()` builds
it (source lines 242-257). -/
structure WireMessage where
  chainId : Nat
  nonce : Nat
  priorityFeePerGas : Nat
  maxFeePerGas : Nat
  gas : Nat
  toAddr : Option (List Nat)
  value : Nat
  data : List Nat
  accessList : List (List Nat × List (List Nat))
  blobVersionedHashes : List (List Nat)
  maxFeePerDataGas : Nat
deriving DecidableEq

/-- The SSZ signature of a signed blob transaction (source lines
259-263): `r` and `s` as integers and the parity bit. -/
structure WireSignature where
  r : Nat
  s : Nat
  yParity : Bool
deriving DecidableEq

/-- Modelled from the spec: the byte image of the SSZ container
`SignedBlobTransactionType` (tx package types module, outside the
included sources). SSZ (de)serialization is a bijection between
containers and their byte strings, so the container itself stands for its
byte string; the leading transaction-type byte `0x05`
(`TRANSACTION_TYPE_BUFFER`) is the first component. -/
structure SerializedBlobTx where
  typeByte : Nat
  message : WireMessage
  signature : WireSignature
deriving DecidableEq

/-- `BlobEIP4844Transaction.serialize` (source lines 237-266): the
minimal (execution-payload) form — type byte `0x05`, then the SSZ
container of all fields with the signature triple rendered as
`{r: r ?? 0, s: s ?? 0, yParity: v == 1}`. -/
def serializeTx (tx : BlobTx) : SerializedBlobTx :=
  { typeByte := 0x05,
    message :=
      { chainId := tx.chainId, nonce := tx.nonce,
        priorityFeePerGas := tx.maxPriorityFeePerGas,
        maxFeePerGas := tx.maxFeePerGas, gas := tx.gasLimit,
        toAddr := tx.toAddr, value := tx.value, data := tx.data,
        accessList := tx.accessList,
        blobVersionedHashes := tx.versionedHashes,
        maxFeePerDataGas := tx.maxFeePerDataGas },
    signature :=
      { r := tx.r.getD 0, s := tx.s.getD 0,
        yParity := decide (tx.v = some 1) } }

/-- `BlobEIP4844Transaction.fromSerializedTx` (source lines 199-223):
strips the type byte, decodes the SSZ container, rebuilds the constructor
input (`v` is the decoded `yParity` bit as 0/1, `r` and `s` the decoded
scalars) and runs the constructor. -/
def fromSerializedTx (w : SerializedBlobTx) (freeze : Bool) :
    Except TxError BlobTx :=
  mkBlobTx
    { chainId := w.message.chainId, nonce := w.message.nonce,
      maxPriorityFeePerGas := w.message.priorityFeePerGas,
      maxFeePerGas := w.message.maxFeePerGas,
      maxFeePerDataGas := w.message.maxFeePerDataGas,
      gasLimit := w.message.gas, toAddr := w.message.toAddr,
      value := w.message.value, data := w.message.data,
      accessList := w.message.accessList,
      versionedHashes := w.message.blobVersionedHashes,
      v := some (if w.signature.yParity then 1 else 0),
      r := some w.signature.r, s := some w.signature.s } freeze

/-- The arguments `getSenderPublicKey` hands to `ecrecover` (source lines
295-301); the message hash is `keccak256` of the minimal serialization,
and keccak is an injective external primitive, so the hashed payload
stands for the hash. -/
structure RecoverRequest where
  hashedPayload : SerializedBlobTx
  v : Nat
  r : List Nat
  s : List Nat
deriving DecidableEq

/-- `BlobEIP4844Transaction.getSenderPublicKey` (source lines 284-306):
fails when the transaction is unsigned (`isSigned`, modelled from the
spec as all of `v`, `r`, `s` being present); re-checks the high-s bound;
then calls `ecrecover` on `keccak256(this.serialize())` — the hash of the
full signed serialization — with `v + 27` and the unpadded `r` and `s`
bytes. `ecrecover`'s own recovery-validity guard is inlined (a failure
there is re-thrown as "Invalid Signature"). -/
def getSenderPublicKey (tx : BlobTx) : Except TxError RecoverRequest :=
  if ¬ (tx.v.isSome ∧ tx.r.isSome ∧ tx.s.isSome) then .error .notSigned
  else if ¬ highSOk tx.s then .error .invalidHighS
  else if ¬ isValidSigRecovery (calculateSigRecovery (tx.v.getD 0 + 27)) then
    .error .invalidSignature
  else
    .ok { hashedPayload := serializeTx tx, v := tx.v.getD 0 + 27,
          r := natToUnpaddedBytes (tx.r.getD 0),
          s := natToUnpaddedBytes (tx.s.getD 0) }

/-- All of the constructor's validation conditions together: construction
succeeds exactly on data satisfying this predicate. -/
def blobTxDataValid (d : BlobTxData) : Prop :=
  baseBoundsOk d ∧ accessListOk d.accessList
    ∧ d.maxFeePerGas ≤ MAX_INTEGER ∧ d.maxPriorityFeePerGas ≤ MAX_INTEGER
    ∧ d.gasLimit * d.maxFeePerGas ≤ MAX_INTEGER
    ∧ d.maxPriorityFeePerGas ≤ d.maxFeePerGas
    ∧ yParityOk d.v ∧ highSOk d.s
    ∧ versionedHashesFormatOk d.versionedHashes
    ∧ d.versionedHashes.length ≤ LIMIT_BLOBS_PER_TX

/-- The constructor returns a transaction exactly when every validation
passes, and the transaction it returns carries the input fields
unchanged. -/
theorem mkBlobTx_ok_iff (d : BlobTxData) (freeze : Bool) (tx : BlobTx) :
    mkBlobTx d freeze = .ok tx ↔ blobTxDataValid d ∧ tx = buildBlobTx d freeze := by
  unfold mkBlobTx blobTxDataValid
  split_ifs <;> simp_all
  exact eq_comm

/-- Claim C7: with the earlier validations (base bounds, access-list
shape) passing, construction with `gasLimit * maxFeePerGas > 2^256 - 1`
fails with the field-bounds error, construction with
`maxFeePerGas < maxPriorityFeePerGas` (and fee fields in bounds) fails
with the fee-ordering error, and any constructed transaction satisfies
both fee invariants — in the `Except` model a failure aborts construction
entirely, so no transaction value is observable. -/
theorem construct_fee_checks (d : BlobTxData) (freeze : Bool)
    (hb : baseBoundsOk d) (hal : accessListOk d.accessList) :
    (MAX_INTEGER < d.gasLimit * d.maxFeePerGas →
        mkBlobTx d freeze = .error .fieldBounds)
    ∧ (d.gasLimit * d.maxFeePerGas ≤ MAX_INTEGER
        → d.maxFeePerGas ≤ MAX_INTEGER → d.maxPriorityFeePerGas ≤ MAX_INTEGER
        → d.maxFeePerGas < d.maxPriorityFeePerGas
        → mkBlobTx d freeze = .error .feeOrdering)
    ∧ (∀ tx, mkBlobTx d freeze = .ok tx →
        d.maxPriorityFeePerGas ≤ d.maxFeePerGas
        ∧ d.gasLimit * d.maxFeePerGas ≤ MAX_INTEGER) := by
  refine ⟨?_, ?_, ?_⟩
  · intro hover
    unfold mkBlobTx
    split_ifs <;> simp_all
  · intro h1 h2 h3 h4
    unfold mkBlobTx
    split_ifs <;> simp_all
    omega
  · intro tx htx
    rcases (mkBlobTx_ok_iff d freeze tx).mp htx with ⟨hvalid, _⟩
    exact ⟨hvalid.2.2.2.2.2.1, hvalid.2.2.2.2.1⟩

/-- Claim C8: with all earlier validations passing, construction fails
with the versioned-hash-format error when some versioned hash is not
32 bytes or does not start with the KZG version byte; fails with the
blob-count error when the (well-formed) hashes exceed the per-transaction
limit; and otherwise succeeds with the hashes kept unchanged. -/
theorem construct_versioned_hash_checks (d : BlobTxData) (freeze : Bool)
    (hb : baseBoundsOk d) (hal : accessListOk d.accessList)
    (hf1 : d.maxFeePerGas ≤ MAX_INTEGER)
    (hf2 : d.maxPriorityFeePerGas ≤ MAX_INTEGER)
    (hprod : d.gasLimit * d.maxFeePerGas ≤ MAX_INTEGER)
    (hord : d.maxPriorityFeePerGas ≤ d.maxFeePerGas)
    (hy : yParityOk d.v) (hs : highSOk d.s) :
    (¬ versionedHashesFormatOk d.versionedHashes →
        mkBlobTx d freeze = .error .versionedHashFormat)
    ∧ (versionedHashesFormatOk d.versionedHashes →
        LIMIT_BLOBS_PER_TX < d.versionedHashes.length →
        mkBlobTx d freeze = .error .blobCountExceeded)
    ∧ (versionedHashesFormatOk d.versionedHashes →
        d.versionedHashes.length ≤ LIMIT_BLOBS_PER_TX →
        ∃ tx, mkBlobTx d freeze = .ok tx
          ∧ tx.versionedHashes = d.versionedHashes) := by
  refine ⟨?_, ?_, ?_⟩
  · intro hbad
    unfold mkBlobTx
    split_ifs <;> simp_all
    all_goals omega
  · intro hgood hcount
    unfold mkBlobTx
    split_ifs <;> simp_all
    all_goals omega
  · intro hgood hcount
    refine ⟨buildBlobTx d freeze, ?_, rfl⟩
    exact (mkBlobTx_ok_iff d freeze _).mpr
      ⟨⟨hb, hal, hf1, hf2, hprod, hord, hy, hs, hgood, hcount⟩, rfl⟩

/-- Claim C9 (amended): for every signed blob transaction (one whose
constructor input carries `v`, `r` and `s`), deserializing the minimal
serialization returns the transaction field-for-field. (An unsigned
transaction does not round-trip: `serialize()` renders the missing
signature as `r = 0, s = 0, yParity = false`, so the deserialized
transaction carries an all-zero signature instead of an absent one; see
the counterexample.) -/
theorem serialize_roundtrip_signed (d : BlobTxData) (freeze : Bool) (tx : BlobTx)
    (h : mkBlobTx d freeze = .ok tx)
    (hv : d.v.isSome) (hr : d.r.isSome) (hs : d.s.isSome) :
    fromSerializedTx (serializeTx tx) freeze = .ok tx := by
  rcases (mkBlobTx_ok_iff d freeze tx).mp h with ⟨hvalid, rfl⟩
  obtain ⟨rv, hrv⟩ := Option.isSome_iff_exists.mp hr
  obtain ⟨sv, hsv⟩ := Option.isSome_iff_exists.mp hs
  obtain ⟨vv, hvv⟩ := Option.isSome_iff_exists.mp hv
  have hy : yParityOk d.v := hvalid.2.2.2.2.2.2.1
  have hvv01 : vv = 0 ∨ vv = 1 := hy vv (by rw [hvv]; rfl)
  have hveq : some (if decide (d.v = some 1) then 1 else 0) = d.v := by
    rcases hvv01 with rfl | rfl <;> simp [hvv]
  have hreq : some (d.r.getD 0) = d.r := by rw [hrv]; rfl
  have hseq : some (d.s.getD 0) = d.s := by rw [hsv]; rfl
  unfold fromSerializedTx serializeTx
  simp only [buildBlobTx, hveq, hreq, hseq]
  exact (mkBlobTx_ok_iff d freeze _).mpr ⟨hvalid, rfl⟩

/-- Claim C10 (amended): a constructed blob transaction is frozen exactly
when the `freeze` option is on (its default), independently of whether a
signature is attached; the rejection of mutations on a frozen instance is
the JavaScript runtime's `Object.freeze` behavior, represented here by
the `frozen` field. -/
theorem frozen_iff_freeze_option (d : BlobTxData) (freeze : Bool) (tx : BlobTx)
    (h : mkBlobTx d freeze = .ok tx) : tx.frozen = freeze := by
  rcases (mkBlobTx_ok_iff d freeze tx).mp h with ⟨_, rfl⟩
  rfl

/-- Fee-check examples: `gasLimit * maxFeePerGas = 2^257` overflows. -/
def feeWitnessDataA : BlobTxData :=
  { chainId := 1, nonce := 0, maxPriorityFeePerGas := 0,
    maxFeePerGas := 4, maxFeePerDataGas := 1, gasLimit := 2 ^ 255,
    toAddr := some (List.replicate 20 0), value := 0, data := [],
    accessList := [], versionedHashes := [], v := none, r := none, s := none }

/-- Fee-check examples: `maxFeePerGas = 1 < 2 = maxPriorityFeePerGas`. -/
def feeWitnessDataB : BlobTxData :=
  { feeWitnessDataA with
    gasLimit := 21000,
    maxFeePerGas := 1,
    maxPriorityFeePerGas := 2 }

/-- Witness for `construct_fee_checks`: the overflow example fails with
the field-bounds error and the mis-ordered example with the fee-ordering
error. -/
theorem construct_fee_checks_witness :
    mkBlobTx feeWitnessDataA true = .error .fieldBounds
    ∧ mkBlobTx feeWitnessDataB true = .error .feeOrdering :=
  ⟨(construct_fee_checks feeWitnessDataA true (by decide) (by decide)).1
      (by decide),
   (construct_fee_checks feeWitnessDataB true (by decide) (by decide)).2.1
      (by decide) (by decide) (by decide) (by decide)⟩

/-- Versioned-hash examples: one well-formed hash. -/
def hashWitnessDataA : BlobTxData :=
  { chainId := 1, nonce := 0, maxPriorityFeePerGas := 1, maxFeePerGas := 2,
    maxFeePerDataGas := 1, gasLimit := 21000,
    toAddr := some (List.replicate 20 0), value := 0, data := [],
    accessList := [], versionedHashes := [1 :: List.replicate 31 0],
    v := none, r := none, s := none }

/-- Versioned-hash examples: a hash starting with byte 2, not the KZG
version byte. -/
def hashWitnessDataB : BlobTxData :=
  { hashWitnessDataA with
    versionedHashes := [2 :: List.replicate 31 0] }

/-- Versioned-hash examples: 17 well-formed hashes, one over the limit. -/
def hashWitnessDataC : BlobTxData :=
  { hashWitnessDataA with
      versionedHashes := List.replicate 17 (1 :: List.replicate 31 0) }

/-- Witness for `construct_versioned_hash_checks` on the three examples. -/
theorem construct_versioned_hash_checks_witness :
    (∃ tx, mkBlobTx hashWitnessDataA true = .ok tx
      ∧ tx.versionedHashes = hashWitnessDataA.versionedHashes)
    ∧ mkBlobTx hashWitnessDataB true = .error .versionedHashFormat
    ∧ mkBlobTx hashWitnessDataC true = .error .blobCountExceeded :=
  ⟨(construct_versioned_hash_checks hashWitnessDataA true (by decide) (by decide)
      (by decide) (by decide) (by decide) (by decide) (by decide)
      (by decide)).2.2 (by decide) (by decide),
   (construct_versioned_hash_checks hashWitnessDataB true (by decide) (by decide)
      (by decide) (by decide) (by decide) (by decide) (by decide)
      (by decide)).1 (by decide),
   (construct_versioned_hash_checks hashWitnessDataC true (by decide) (by decide)
      (by decide) (by decide) (by decide) (by decide) (by decide)
      (by decide)).2.1 (by decide) (by decide)⟩

/-- Round-trip examples: a fully populated signed transaction. -/
def roundtripSignedData : BlobTxData :=
  { chainId := 1, nonce := 7, maxPriorityFeePerGas := 1, maxFeePerGas := 2,
    maxFeePerDataGas := 1, gasLimit := 21000,
    toAddr := some (List.replicate 20 3), value := 5, data := [0, 1],
    accessList := [(List.replicate 20 4, [List.replicate 32 5])],
    versionedHashes := [1 :: List.replicate 31 0],
    v := some 1, r := some 9, s := some 9 }

/-- Round-trip examples: the same transaction without its signature. -/
def roundtripUnsignedData : BlobTxData :=
  { roundtripSignedData with
    v := none,
    r := none,
    s := none }

/-- Witness for `serialize_roundtrip_signed` on the signed example. -/
theorem serialize_roundtrip_signed_witness :
    fromSerializedTx (serializeTx (buildBlobTx roundtripSignedData true)) true
      = .ok (buildBlobTx roundtripSignedData true) :=
  serialize_roundtrip_signed roundtripSignedData true
    (buildBlobTx roundtripSignedData true)
    (by decide) (by decide) (by decide) (by decide)

/-- Counterexample to claim C9 as stated: the unsigned example does not
round-trip — deserializing its serialization yields a transaction whose
`r` is present (zero) where the original had none, so the two differ. -/
theorem serialize_roundtrip_unsigned_fails :
    Except.bind (mkBlobTx roundtripUnsignedData true)
        (fun tx => fromSerializedTx (serializeTx tx) true)
      ≠ mkBlobTx roundtripUnsignedData true
    ∧ Except.map (fun tx => tx.r)
        (Except.bind (mkBlobTx roundtripUnsignedData true)
          (fun tx => fromSerializedTx (serializeTx tx) true)) = .ok (some 0)
    ∧ Except.map (fun tx => tx.r) (mkBlobTx roundtripUnsignedData true)
      = .ok none := by
  decide

/-- Freeze example: a signed transaction. -/
def freezeSignedData : BlobTxData :=
  { chainId := 1, nonce := 0, maxPriorityFeePerGas := 1, maxFeePerGas := 2,
    maxFeePerDataGas := 1, gasLimit := 21000,
    toAddr := some (List.replicate 20 0), value := 0, data := [],
    accessList := [], versionedHashes := [],
    v := some 0, r := some 1, s := some 1 }

/-- Witness for `frozen_iff_freeze_option`: with the default `freeze` the
signed example is frozen. -/
theorem frozen_iff_freeze_option_witness :
    (buildBlobTx freezeSignedData true).frozen = true :=
  frozen_iff_freeze_option freezeSignedData true
    (buildBlobTx freezeSignedData true) (by decide)

/-- Counterexample to claim C10 as stated: constructing the signed
example with the `freeze` option disabled yields a transaction that
carries a signature but is not frozen, so attaching a signature alone
does not freeze the instance. -/
theorem signed_not_frozen_when_freeze_disabled :
    Except.map BlobTx.frozen (mkBlobTx freezeSignedData false) = .ok false
    ∧ Except.map (fun tx => tx.v.isSome && tx.r.isSome && tx.s.isSome)
        (mkBlobTx freezeSignedData false) = .ok true := by
  decide

/-- Sender-recovery examples: a signed transaction with `r = 1`. -/
def senderTxData1 : BlobTxData :=
  { chainId := 1, nonce := 0, maxPriorityFeePerGas := 1, maxFeePerGas := 2,
    maxFeePerDataGas := 1, gasLimit := 21000,
    toAddr := some (List.replicate 20 0), value := 0, data := [],
    accessList := [], versionedHashes := [],
    v := some 0, r := some 1, s := some 1 }

/-- Sender-recovery examples: the same transaction with `r = 2`. -/
def senderTxData2 : BlobTxData :=
  { senderTxData1 with
    r := some 2 }

/-- Sender-recovery examples: the same transaction unsigned. -/
def senderTxData0 : BlobTxData :=
  { senderTxData1 with
    v := none,
    r := none,
    s := none }

/-- Claim C6, evaluated at the failing input: `getSenderPublicKey` fails
with the not-signed error on the unsigned example and re-adds 27 to `v`
as the claim says, but the payload it hashes for recovery is the full
signed serialization: the two signed examples agree on every
non-signature field (equal wire messages) yet produce different hashed
payloads, so the recovery hash covers the signature triple instead of
excluding it. -/
theorem getSenderPublicKey_hashes_signed_payload :
    Except.bind (mkBlobTx senderTxData0 true) getSenderPublicKey
      = .error .notSigned
    ∧ Except.map RecoverRequest.v
        (Except.bind (mkBlobTx senderTxData1 true) getSenderPublicKey)
      = .ok 27
    ∧ Except.map (fun q => q.hashedPayload.message)
        (Except.bind (mkBlobTx senderTxData1 true) getSenderPublicKey)
      = Except.map (fun q => q.hashedPayload.message)
        (Except.bind (mkBlobTx senderTxData2 true) getSenderPublicKey)
    ∧ Except.map RecoverRequest.hashedPayload
        (Except.bind (mkBlobTx senderTxData1 true) getSenderPublicKey)
      ≠ Except.map RecoverRequest.hashedPayload
        (Except.bind (mkBlobTx senderTxData2 true) getSenderPublicKey) := by
  decide
